import Mathlib

/-!
Verification of the Linear webhook agent (`main.py`).

The Python source is shallowly embedded: JSON values become the inductive
`JValue`, the mutable `LinearAgent` object becomes an explicit `AgentState`
threaded through each method, outbound HTTP traffic becomes a list of
`LinearRequest` values paired with a response oracle, and Python exceptions
become `Except String`.  Wall-clock time (`datetime.now()`) is passed in as a
parameter.
-/

/-- A JSON value, as produced by `request.json()` / consumed by `JSONResponse`.
Objects keep their fields as an ordered association list, matching Python
dict insertion order. -/
inductive JValue where
  | null
  | bool (b : Bool)
  | num (n : Int)
  | str (s : String)
  | arr (elems : List JValue)
  | obj (fields : List (String × JValue))

/-- Field lookup in a JSON object association list (first match wins; Python
dicts have unique keys, so this is exact). -/
def jlookup : List (String × JValue) → String → Option JValue
  | [], _ => none
  | (k, v) :: rest, key => if k = key then some v else jlookup rest key

/-- Python `x.get(key)` on a value expected to be a dict: returns `None`
(`JValue.null`) when the key is absent, and raises `AttributeError` when the
receiver is not a dict. -/
def pyGet (v : JValue) (key : String) : Except String JValue :=
  match v with
  | .obj fields => .ok ((jlookup fields key).getD .null)
  | _ => .error "AttributeError"

/-- Python `x.get(key, default)`: like `pyGet` but with an explicit default
for an absent key. -/
def pyGetD (v : JValue) (key : String) (dflt : JValue) : Except String JValue :=
  match v with
  | .obj fields => .ok ((jlookup fields key).getD dflt)
  | _ => .error "AttributeError"

/-- Python `v == "s"` where `v` is an arbitrary JSON value: true exactly when
`v` is the string `s`. -/
def isStrEq (v : JValue) (s : String) : Bool :=
  match v with
  | .str t => t = s
  | _ => false

/-- `LinearConfig` from `main.py`: immutable settings loaded at startup. -/
structure LinearConfig where
  client_id : String
  client_secret : String
  webhook_secret : String
  webhook_path : String
  api_url : String

/-- The mutable fields of a `LinearAgent` instance (`self.config`,
`self.access_token`).  The OpenAI client handle is never used by any method
under verification, so it is not modelled. -/
structure AgentState where
  config : LinearConfig
  access_token : Option String

/-- One outbound HTTP POST issued through `requests.post`. -/
structure LinearRequest where
  url : String
  payload : JValue
  headers : List (String × String)

/-- An HTTP response produced by the FastAPI endpoints. -/
structure HttpResponse where
  statusCode : Nat
  body : JValue

/-- Python truthiness of `self.access_token : Optional[str]`: `None` and the
empty string are falsy, every other string is truthy. -/
def tokenTruthy : Option String → Bool
  | none => false
  | some s => !s.isEmpty

/-- `LinearAgent.authenticate_app`: reads `LINEAR_ACCESS_TOKEN` from the
environment (modelled as the `env_token` argument), stores it in
`self.access_token`, and returns `token is not None`. -/
def LinearAgent.authenticate_app (s : AgentState) (env_token : Option String) :
    AgentState × Bool :=
  (⟨s.config, env_token⟩, env_token.isSome)

/-- The request `LinearAgent.make_linear_request` sends once the token check
has passed: bearer-token and content-type headers, GraphQL payload with
`variables or {}`. -/
def mkLinearRequest (s : AgentState) (query : String) (vars : Option JValue) :
    LinearRequest :=
  ⟨s.config.api_url,
   .obj [("query", .str query), ("variables", vars.getD (.obj []))],
   [("Authorization", "Bearer " ++ s.access_token.getD ""),
    ("Content-Type", "application/json")]⟩

/-- `LinearAgent.make_linear_request`.  `respond` is the network oracle:
given the issued request it yields the HTTP status code and the parsed JSON
body (`none` when the body does not parse as JSON, in which case
`response.json()` raises).  `raise_for_status` raises `HTTPError` exactly for
status codes in `[400, 600)`.  Returns the (unchanged) agent state, the list
of requests actually issued, and the result or exception. -/
def LinearAgent.make_linear_request (s : AgentState)
    (respond : LinearRequest → Nat × Option JValue)
    (query : String) (vars : Option JValue) :
    AgentState × List LinearRequest × Except String JValue :=
  if tokenTruthy s.access_token = false then
    (s, [], .error "Not authenticated. Call authenticate_app() first.")
  else
    let req := mkLinearRequest s query vars
    let resp := respond req
    if 400 ≤ resp.1 ∧ resp.1 < 600 then
      (s, [req], .error "HTTPError")
    else
      match resp.2 with
      | some j => (s, [req], .ok j)
      | none => (s, [req], .error "JSONDecodeError")

/-- `LinearAgent.handle_assignment`: extracts `assigneeId` and `issueId` from
the webhook `data` and echoes them in a result dict with status `processed`
and the current timestamp `ts`. -/
def LinearAgent.handle_assignment (s : AgentState) (ts : String)
    (assignment_data : JValue) :
    AgentState × List LinearRequest × Except String JValue :=
  match pyGet assignment_data "assigneeId" with
  | .error e => (s, [], .error e)
  | .ok assignee_id =>
    match pyGet assignment_data "issueId" with
    | .error e => (s, [], .error e)
    | .ok issue_id =>
      (s, [], .ok (.obj [("status", .str "processed"),
                         ("assignee_id", assignee_id),
                         ("issue_id", issue_id),
                         ("timestamp", .str ts)]))

/-- `LinearAgent.process_issue_update`: extracts `id` from the webhook `data`
and echoes it in a result dict with status `processed` and the current
timestamp `ts`. -/
def LinearAgent.process_issue_update (s : AgentState) (ts : String)
    (issue_data : JValue) :
    AgentState × List LinearRequest × Except String JValue :=
  match pyGet issue_data "id" with
  | .error e => (s, [], .error e)
  | .ok issue_id =>
    (s, [], .ok (.obj [("status", .str "processed"),
                       ("issue_id", issue_id),
                       ("timestamp", .str ts)]))

/-- `verify_signature` from `main.py`: the stub always returns `True`. -/
def verify_signature (payload : JValue) (signature : String) (secret : String) :
    Bool :=
  true

/-- The body of the `try` block in `handle_webhook`: extract `type`, `action`
and `data` (defaulting to `{}`) from the payload and route by event type.
Raised exceptions surface as `.error`. -/
def hwDispatch (s : AgentState) (ts : String) (payload : JValue) :
    AgentState × List LinearRequest × Except String JValue :=
  match pyGet payload "type" with
  | .error e => (s, [], .error e)
  | .ok event_type =>
    match pyGet payload "action" with
    | .error e => (s, [], .error e)
    | .ok _action =>
      match pyGetD payload "data" (.obj []) with
      | .error e => (s, [], .error e)
      | .ok data =>
        if isStrEq event_type "Assignment" then
          LinearAgent.handle_assignment s ts data
        else if isStrEq event_type "Issue" then
          LinearAgent.process_issue_update s ts data
        else if isStrEq event_type "Comment" then
          (s, [], .ok (.obj [("status", .str "comment_processed")]))
        else
          (s, [], .ok (.obj [("status", .str "unhandled"), ("type", event_type)]))

/-- The HTTP 500 response FastAPI renders for
`HTTPException(status_code=500, detail="Internal server error")`. -/
def internalServerError : HttpResponse :=
  ⟨500, .obj [("detail", .str "Internal server error")]⟩

/-- `handle_webhook`: `body` is the result of `await request.json()` (`none`
when the request body is not valid JSON, which raises inside the `try`).
Any exception from parsing or dispatch is caught and answered with HTTP 500;
a dispatch result is answered with HTTP 200 via `JSONResponse`. -/
def handle_webhook (s : AgentState) (ts : String) (body : Option JValue) :
    AgentState × List LinearRequest × HttpResponse :=
  match body with
  | none => (s, [], internalServerError)
  | some payload =>
    match hwDispatch s ts payload with
    | (s1, reqs, .ok result) => (s1, reqs, ⟨200, result⟩)
    | (s1, reqs, .error _) => (s1, reqs, internalServerError)

/-- A value of Python's `datetime` as returned by `datetime.now()`.
`datetime` guarantees `1 ≤ year ≤ 9999`, `1 ≤ month ≤ 12`, `1 ≤ day ≤ 31`,
`hour ≤ 23`, `minute ≤ 59`, `second ≤ 59`, `microsecond ≤ 999999`. -/
structure PyDatetime where
  year : Nat
  month : Nat
  day : Nat
  hour : Nat
  minute : Nat
  second : Nat
  microsecond : Nat

/-- The decimal digit character for `n % 10`. -/
def digitChar (n : Nat) : Char :=
  Char.ofNat (48 + n % 10)

/-- Two-digit zero-padded decimal rendering (Python `%02d`, exact for
arguments below 100). -/
def pad2 (n : Nat) : List Char :=
  [digitChar (n / 10), digitChar n]

/-- Four-digit zero-padded decimal rendering (Python `%04d`, exact for
arguments below 10000). -/
def pad4 (n : Nat) : List Char :=
  [digitChar (n / 1000), digitChar (n / 100), digitChar (n / 10), digitChar n]

/-- Six-digit zero-padded decimal rendering (Python `%06d`, exact for
arguments below 1000000). -/
def pad6 (n : Nat) : List Char :=
  [digitChar (n / 100000), digitChar (n / 10000), digitChar (n / 1000),
   digitChar (n / 100), digitChar (n / 10), digitChar n]

/-- Character list of `datetime.isoformat()`:
`YYYY-MM-DDTHH:MM:SS` followed by `.ffffff` when the microsecond field is
nonzero (Python omits the fractional part exactly when it is zero). -/
def isoformatChars (d : PyDatetime) : List Char :=
  pad4 d.year ++ '-' :: pad2 d.month ++ '-' :: pad2 d.day ++
  'T' :: pad2 d.hour ++ ':' :: pad2 d.minute ++ ':' :: pad2 d.second ++
  (if d.microsecond = 0 then [] else '.' :: pad6 d.microsecond)

/-- `datetime.isoformat()` as a string. -/
def isoformat (d : PyDatetime) : String :=
  String.mk (isoformatChars d)

/-- Checks an optional ISO-8601 fractional-second suffix: either empty or a
dot followed by exactly six decimal digits. -/
def checkFrac : List Char → Bool
  | [] => true
  | c :: ds => c == '.' && ds.length == 6 && ds.all Char.isDigit

/-- Well-formedness checker for an ISO-8601 date-time string of the shape
`YYYY-MM-DDTHH:MM:SS[.ffffff]`. -/
def isISO8601 (s : String) : Bool :=
  match s.toList with
  | y1 :: y2 :: y3 :: y4 :: c1 :: m1 :: m2 :: c2 :: d1 :: d2 :: c3 ::
      h1 :: h2 :: c4 :: n1 :: n2 :: c5 :: s1 :: s2 :: rest =>
    y1.isDigit && y2.isDigit && y3.isDigit && y4.isDigit &&
    c1 == '-' && m1.isDigit && m2.isDigit && c2 == '-' &&
    d1.isDigit && d2.isDigit && c3 == 'T' &&
    h1.isDigit && h2.isDigit && c4 == ':' &&
    n1.isDigit && n2.isDigit && c5 == ':' &&
    s1.isDigit && s2.isDigit && checkFrac rest
  | _ => false

/-- `health_check`: `GET /health` always answers HTTP 200 with status
`healthy` and the current time in ISO-8601 format. -/
def health_check (d : PyDatetime) : HttpResponse :=
  ⟨200, .obj [("status", .str "healthy"), ("timestamp", .str (isoformat d))]⟩

/-- A sample configuration, used to instantiate concrete witnesses. -/
def sampleConfig : LinearConfig :=
  ⟨"client-id", "client-secret", "webhook-secret", "/webhooks/linear",
   "https://api.linear.app/graphql"⟩

/-- A sample agent state with no access token. -/
def sampleState : AgentState :=
  ⟨sampleConfig, none⟩

/-- A sample agent state holding a non-empty access token. -/
def tokenState : AgentState :=
  ⟨sampleConfig, some "lin-oauth-token"⟩

/-- `digitChar` always yields a decimal digit character. -/
theorem digitChar_isDigit (n : Nat) : (digitChar n).isDigit = true := by
  have h : n % 10 < 10 := Nat.mod_lt n (by decide)
  unfold digitChar
  generalize hk : n % 10 = k at h
  interval_cases k <;> decide

/-- The string produced by `isoformat` always passes the ISO-8601 checker. -/
theorem isISO8601_isoformat (d : PyDatetime) : isISO8601 (isoformat d) = true := by
  unfold isISO8601 isoformat isoformatChars pad4 pad2 pad6
  by_cases hm : d.microsecond = 0 <;>
    simp [hm, digitChar_isDigit, checkFrac, String.toList]

/-- Claim C1: `verify_signature` returns `true` for every payload, signature
and secret, and the webhook endpoint never answers HTTP 403 for a bad
signature (the dispatch path never rejects a request with 403 at all). -/
theorem claim_C1 :
    (∀ p sig sec, verify_signature p sig sec = true) ∧
    (∀ s ts body, (handle_webhook s ts body).2.2.statusCode ≠ 403) := by
  refine ⟨fun _ _ _ => rfl, fun s ts body => ?_⟩
  cases body with
  | none => simp [handle_webhook, internalServerError]
  | some payload =>
    rcases h : hwDispatch s ts payload with ⟨s1, reqs, r⟩
    cases r <;> simp [handle_webhook, h, internalServerError]

/-- Claim C2: an envelope of type `Assignment` whose `data` is a JSON object
is answered with HTTP 200, status `processed`, echoing the `assigneeId` and
`issueId` values of `data` verbatim and `null` for each absent identifier. -/
theorem claim_C2 (s : AgentState) (ts : String)
    (fields dataFields : List (String × JValue))
    (htype : jlookup fields "type" = some (.str "Assignment"))
    (hdata : jlookup fields "data" = some (.obj dataFields)) :
    handle_webhook s ts (some (.obj fields)) =
      (s, [], ⟨200, .obj [("status", .str "processed"),
        ("assignee_id", (jlookup dataFields "assigneeId").getD .null),
        ("issue_id", (jlookup dataFields "issueId").getD .null),
        ("timestamp", .str ts)]⟩) := by
  simp [handle_webhook, hwDispatch, pyGet, pyGetD, htype, hdata, isStrEq,
        LinearAgent.handle_assignment]

/-- Witness for claim C2 at a concrete envelope with `assigneeId` present and
`issueId` absent. -/
theorem claim_C2_witness :
    handle_webhook sampleState "2023-01-01T00:00:00" (some (.obj
      [("type", .str "Assignment"), ("action", .str "create"),
       ("data", .obj [("assigneeId", .str "user-1")])])) =
      (sampleState, [], ⟨200, .obj [("status", .str "processed"),
        ("assignee_id", .str "user-1"), ("issue_id", .null),
        ("timestamp", .str "2023-01-01T00:00:00")]⟩) :=
  claim_C2 sampleState "2023-01-01T00:00:00"
    [("type", .str "Assignment"), ("action", .str "create"),
     ("data", .obj [("assigneeId", .str "user-1")])]
    [("assigneeId", .str "user-1")] rfl rfl

/-- Claim C3: an envelope whose `type` value is none of `Assignment`,
`Issue`, `Comment` (including an absent `type`, which reads as `null`) is
answered with HTTP 200 and body exactly
`{"status": "unhandled", "type": <value>}`. -/
theorem claim_C3 (s : AgentState) (ts : String)
    (fields : List (String × JValue)) (t : JValue)
    (htype : (jlookup fields "type").getD .null = t)
    (h1 : isStrEq t "Assignment" = false)
    (h2 : isStrEq t "Issue" = false)
    (h3 : isStrEq t "Comment" = false) :
    handle_webhook s ts (some (.obj fields)) =
      (s, [], ⟨200, .obj [("status", .str "unhandled"), ("type", t)]⟩) := by
  simp [handle_webhook, hwDispatch, pyGet, pyGetD, htype, h1, h2, h3]

/-- Witness for claim C3 at a concrete envelope with an unrecognized type. -/
theorem claim_C3_witness :
    handle_webhook sampleState "2023-01-01T00:00:00"
      (some (.obj [("type", .str "ProjectUpdate")])) =
      (sampleState, [], ⟨200, .obj [("status", .str "unhandled"),
        ("type", .str "ProjectUpdate")]⟩) :=
  claim_C3 sampleState "2023-01-01T00:00:00" [("type", .str "ProjectUpdate")]
    (.str "ProjectUpdate") rfl rfl rfl rfl

/-- Claim C4: a request body that is not valid JSON, and more generally any
exception raised during dispatch, is answered with the generic HTTP 500
`Internal server error` response rather than crashing. -/
theorem claim_C4 (s : AgentState) (ts : String) (body : Option JValue)
    (h : body = none ∨ ∃ payload e, body = some payload ∧
      (hwDispatch s ts payload).2.2 = .error e) :
    (handle_webhook s ts body).2.2 = internalServerError := by
  rcases h with h | ⟨payload, e, hb, he⟩
  · subst h; rfl
  · subst hb
    rcases hd : hwDispatch s ts payload with ⟨s1, reqs, r⟩
    rw [hd] at he
    cases r
    · simp [handle_webhook, hd]
    · simp at he

/-- Witness for claim C4 at a body that fails JSON parsing. -/
theorem claim_C4_witness :
    (handle_webhook sampleState "2023-01-01T00:00:00" none).2.2 =
      internalServerError :=
  claim_C4 sampleState "2023-01-01T00:00:00" none (Or.inl rfl)

/-- Claim C5 as stated is false: with a token set, an upstream response with
status 300 — which is not 2xx — and a JSON body makes `make_linear_request`
return the parsed body instead of propagating an exception, because
`raise_for_status` raises only for status codes in `[400, 600)`. -/
theorem claim_C5_counterexample :
    ¬ (200 ≤ 300 ∧ 300 ≤ 299) ∧
    LinearAgent.make_linear_request tokenState (fun _ => (300, some (.obj [])))
      "gqlquery" none =
      (tokenState, [mkLinearRequest tokenState "gqlquery" none],
       .ok (.obj [])) :=
  ⟨by decide, rfl⟩

/-- Claim C5 (amended): with no usable access token, `make_linear_request`
raises before issuing any HTTP request; with a token set, an upstream 4xx or
5xx status makes the `HTTPError` raised by `raise_for_status` propagate
rather than a partial result being returned. -/
theorem claim_C5 (s : AgentState)
    (respond : LinearRequest → Nat × Option JValue)
    (query : String) (vars : Option JValue) :
    (tokenTruthy s.access_token = false →
      LinearAgent.make_linear_request s respond query vars =
        (s, [], .error "Not authenticated. Call authenticate_app() first.")) ∧
    (tokenTruthy s.access_token = true →
      400 ≤ (respond (mkLinearRequest s query vars)).1 →
      (respond (mkLinearRequest s query vars)).1 < 600 →
      LinearAgent.make_linear_request s respond query vars =
        (s, [mkLinearRequest s query vars], .error "HTTPError")) := by
  constructor
  · intro h
    simp [LinearAgent.make_linear_request, h]
  · intro h h4 h6
    simp [LinearAgent.make_linear_request, h, h4, h6]

/-- Witness for claim C5: an authenticated request hitting an upstream 404
propagates `HTTPError`. -/
theorem claim_C5_witness :
    LinearAgent.make_linear_request tokenState (fun _ => (404, none))
      "gql" none =
      (tokenState, [mkLinearRequest tokenState "gql" none],
       .error "HTTPError") :=
  (claim_C5 tokenState (fun _ => (404, none)) "gql" none).2 rfl
    (by decide) (by decide)

/-- Claim C6: an envelope of type `Issue` whose `data` is a JSON object is
routed to `process_issue_update` and answered with status `processed`, the
`id` extracted from `data` (`null` when absent) and the processing
timestamp. -/
theorem claim_C6 (s : AgentState) (ts : String)
    (fields dataFields : List (String × JValue))
    (htype : jlookup fields "type" = some (.str "Issue"))
    (hdata : jlookup fields "data" = some (.obj dataFields)) :
    handle_webhook s ts (some (.obj fields)) =
      (s, [], ⟨200, .obj [("status", .str "processed"),
        ("issue_id", (jlookup dataFields "id").getD .null),
        ("timestamp", .str ts)]⟩) := by
  simp [handle_webhook, hwDispatch, pyGet, pyGetD, htype, hdata, isStrEq,
        LinearAgent.process_issue_update]

/-- Witness for claim C6 at a concrete envelope carrying an issue id. -/
theorem claim_C6_witness :
    handle_webhook sampleState "2023-01-01T00:00:00" (some (.obj
      [("type", .str "Issue"), ("action", .str "update"),
       ("data", .obj [("id", .str "issue-7")])])) =
      (sampleState, [], ⟨200, .obj [("status", .str "processed"),
        ("issue_id", .str "issue-7"),
        ("timestamp", .str "2023-01-01T00:00:00")]⟩) :=
  claim_C6 sampleState "2023-01-01T00:00:00"
    [("type", .str "Issue"), ("action", .str "update"),
     ("data", .obj [("id", .str "issue-7")])]
    [("id", .str "issue-7")] rfl rfl

/-- Claim C7: `GET /health` always answers HTTP 200 with a body whose
`status` field is present (`healthy`) and whose `timestamp` field is a
well-formed ISO-8601 string. -/
theorem claim_C7 (d : PyDatetime)
    (hy : 1 ≤ d.year ∧ d.year ≤ 9999) (hmo : 1 ≤ d.month ∧ d.month ≤ 12)
    (hd : 1 ≤ d.day ∧ d.day ≤ 31) (hh : d.hour ≤ 23) (hmi : d.minute ≤ 59)
    (hs : d.second ≤ 59) (hus : d.microsecond ≤ 999999) :
    (health_check d).statusCode = 200 ∧
    (health_check d).body = .obj [("status", .str "healthy"),
      ("timestamp", .str (isoformat d))] ∧
    isISO8601 (isoformat d) = true :=
  ⟨rfl, rfl, isISO8601_isoformat d⟩

/-- Witness for claim C7 at a concrete clock reading. -/
theorem claim_C7_witness :
    (health_check ⟨2023, 7, 14, 12, 30, 5, 123456⟩).statusCode = 200 ∧
    (health_check ⟨2023, 7, 14, 12, 30, 5, 123456⟩).body =
      .obj [("status", .str "healthy"),
        ("timestamp", .str (isoformat ⟨2023, 7, 14, 12, 30, 5, 123456⟩))] ∧
    isISO8601 (isoformat ⟨2023, 7, 14, 12, 30, 5, 123456⟩) = true :=
  claim_C7 ⟨2023, 7, 14, 12, 30, 5, 123456⟩ (by decide) (by decide) (by decide)
    (by decide) (by decide) (by decide) (by decide)

/-- Claim C8: both event handlers are pure stateless transforms: for every
input they leave the agent state unchanged and issue no outbound request. -/
theorem claim_C8 (s : AgentState) (ts : String) (d : JValue) :
    (LinearAgent.handle_assignment s ts d).1 = s ∧
    (LinearAgent.handle_assignment s ts d).2.1 = [] ∧
    (LinearAgent.process_issue_update s ts d).1 = s ∧
    (LinearAgent.process_issue_update s ts d).2.1 = [] := by
  cases d <;>
    simp [LinearAgent.handle_assignment, LinearAgent.process_issue_update, pyGet]

/-- Claim C9: missing envelope fields are never rejected: with `data` absent
the handlers run on the empty dict and echo `null` identifiers, and with
`type` absent the envelope is answered `unhandled` with a `null` type. -/
theorem claim_C9 (s : AgentState) (ts : String)
    (fields : List (String × JValue)) :
    (jlookup fields "type" = some (.str "Assignment") →
      jlookup fields "data" = none →
      handle_webhook s ts (some (.obj fields)) =
        (s, [], ⟨200, .obj [("status", .str "processed"),
          ("assignee_id", .null), ("issue_id", .null),
          ("timestamp", .str ts)]⟩)) ∧
    (jlookup fields "type" = some (.str "Issue") →
      jlookup fields "data" = none →
      handle_webhook s ts (some (.obj fields)) =
        (s, [], ⟨200, .obj [("status", .str "processed"),
          ("issue_id", .null), ("timestamp", .str ts)]⟩)) ∧
    (jlookup fields "type" = none →
      handle_webhook s ts (some (.obj fields)) =
        (s, [], ⟨200, .obj [("status", .str "unhandled"),
          ("type", .null)]⟩)) := by
  refine ⟨fun ht hd => ?_, fun ht hd => ?_, fun ht => ?_⟩
  · simp [handle_webhook, hwDispatch, pyGet, pyGetD, isStrEq, ht, hd,
      LinearAgent.handle_assignment, jlookup]
  · simp [handle_webhook, hwDispatch, pyGet, pyGetD, isStrEq, ht, hd,
      LinearAgent.process_issue_update, jlookup]
  · simp [handle_webhook, hwDispatch, pyGet, pyGetD, isStrEq, ht]

/-- Witness for claim C9 at a concrete envelope with no `data` field. -/
theorem claim_C9_witness :
    handle_webhook sampleState "2023-01-01T00:00:00"
      (some (.obj [("type", .str "Assignment")])) =
      (sampleState, [], ⟨200, .obj [("status", .str "processed"),
        ("assignee_id", .null), ("issue_id", .null),
        ("timestamp", .str "2023-01-01T00:00:00")]⟩) :=
  (claim_C9 sampleState "2023-01-01T00:00:00"
    [("type", .str "Assignment")]).1 rfl rfl

/-- Claim C10: with `LINEAR_ACCESS_TOKEN` set to the empty string,
`authenticate_app` reports success, yet every subsequent
`make_linear_request` raises the not-authenticated exception without issuing
any HTTP request, because the request path treats an empty token as no
token. -/
theorem claim_C10 (s : AgentState)
    (respond : LinearRequest → Nat × Option JValue)
    (query : String) (vars : Option JValue) :
    (LinearAgent.authenticate_app s (some "")).2 = true ∧
    LinearAgent.make_linear_request
        (LinearAgent.authenticate_app s (some "")).1 respond query vars =
      ((LinearAgent.authenticate_app s (some "")).1, [],
       .error "Not authenticated. Call authenticate_app() first.") := by
  refine ⟨rfl, ?_⟩
  have hempty : tokenTruthy (some "") = false := by decide
  simp [LinearAgent.make_linear_request, LinearAgent.authenticate_app, hempty]
